import Mathlib

/-!
Verification of the Product CRUD service (`service/models.py`, `service/routes.py`).

The Python source is shallowly embedded:

* `Category` mirrors the `Category(Enum)` with its six variants.
* Python `decimal.Decimal` values are modelled by `Dec`, a pair of an integer
  mantissa and an integer exponent (the value is `mant * 10 ^ exp`).  Python's
  `str`/`Decimal` pair round-trips decimals exactly, so a serialized price is
  modelled as a string value that parses back to the same `Dec`.
* Python/JSON values reaching `deserialize` are modelled by `Value`, which
  partitions them by the behaviour the code observes: strings that parse as a
  decimal (`vNumStr`), other strings (`vStr`), booleans (`vBool`), JSON numbers
  (`vNum`), integers (`vInt`), `None` (`vNone`) and everything else (`vOther`).
* A Python dict passed to `deserialize` is `DataMap`: one optional `Value` per
  key the code reads, plus an `extra` flag recording whether the dict holds any
  other key (so that `not data`, Python dict falsiness, is expressible).
* `Product` is the entity; `name`/`description` are `Value` because
  `deserialize` assigns them without any type check.  `id` is `Option Int`
  (`none` is Python `None`); `not self.id` is falsy for both `None` and `0`.
* The persistence gateway is a state `DB`: the list of rows plus the storage
  generated next primary key.  `create`/`update`/`delete`/`find` and the
  `find_by_*` class methods become functions on `DB`.
* Each route handler becomes a function from its inputs (request headers and
  parsed body, query string arguments, path id) and the `DB` to a `Resp`
  (status code and JSON body), together with the resulting `DB` for mutating
  routes.
-/

/-- `class Category(Enum)` of `service/models.py` with its six variants. -/
inductive Category where
  | UNKNOWN
  | CLOTHS
  | FOOD
  | HOUSEWARES
  | AUTOMOTIVE
  | TOOLS
  deriving DecidableEq, Repr

/-- `Category.name` in Python: the symbolic name of a variant. -/
def Category.toName : Category → String
  | .UNKNOWN => "UNKNOWN"
  | .CLOTHS => "CLOTHS"
  | .FOOD => "FOOD"
  | .HOUSEWARES => "HOUSEWARES"
  | .AUTOMOTIVE => "AUTOMOTIVE"
  | .TOOLS => "TOOLS"

/-- `Category[s]` in Python: enum lookup by symbolic name; `none` models the
`KeyError` raised when `s` is not a variant name (lookup is case sensitive). -/
def Category.fromName (s : String) : Option Category :=
  if s = "UNKNOWN" then some .UNKNOWN
  else if s = "CLOTHS" then some .CLOTHS
  else if s = "FOOD" then some .FOOD
  else if s = "HOUSEWARES" then some .HOUSEWARES
  else if s = "AUTOMOTIVE" then some .AUTOMOTIVE
  else if s = "TOOLS" then some .TOOLS
  else none

/-- A `decimal.Decimal` value: `mant * 10 ^ exp`.  `Decimal` keeps its exponent
(`Decimal("12.50")` is mantissa 1250, exponent -2, and prints back as
`"12.50"`), so structural equality of `Dec` matches the exact round-trip
behaviour of `str`/`Decimal`. -/
structure Dec where
  mant : Int
  exp : Int
  deriving DecidableEq, Repr

/-- A Python/JSON value as observed by the service code, partitioned by the
operations the code applies: `Decimal(v)`, `isinstance(v, bool)`,
`Category[v]`.

* `vNumStr d` — a string accepted by `Decimal`, denoting decimal `d`
  (`str(d)` is such a string: Python guarantees `Decimal(str(d)) == d`);
* `vStr s` — a string `Decimal` rejects (category names are such strings);
* `vBool b` — a boolean (`Decimal(True) == 1`, `Decimal(False) == 0`);
* `vInt n` — an integer (accepted by `Decimal`, not a `bool`, not a name);
* `vNum d` — any other JSON number accepted by `Decimal`;
* `vNone` — `None` (`Decimal(None)` raises `TypeError`);
* `vOther` — any other value (lists, dicts, ...; `Decimal` raises). -/
inductive Value where
  | vNumStr (d : Dec)
  | vStr (s : String)
  | vBool (b : Bool)
  | vInt (n : Int)
  | vNum (d : Dec)
  | vNone
  | vOther
  deriving DecidableEq, Repr

/-- `Decimal(v)`: `none` models the `InvalidOperation`/`TypeError` raised when
`v` cannot be converted to a decimal. -/
def parseDecimal : Value → Option Dec
  | .vNumStr d => some d
  | .vStr _ => none
  | .vBool b => some ⟨if b then 1 else 0, 0⟩
  | .vInt n => some ⟨n, 0⟩
  | .vNum d => some d
  | .vNone => none
  | .vOther => none

/-- `isinstance(v, bool)`. -/
def Value.isBool : Value → Bool
  | .vBool _ => true
  | _ => false

/-- `Category[v]`: only a string equal to a variant name resolves; every other
value raises (`KeyError` or `TypeError`), modelled as `none`.  Strings accepted
by `Decimal` are never variant names. -/
def categoryOfValue : Value → Option Category
  | .vStr s => Category.fromName s
  | _ => none

/-- A dict handed to `deserialize` / produced by `serialize`: one optional
value per key the code touches, plus `extra` recording whether the dict holds
any further key (needed for Python's `not data` falsiness test). -/
structure DataMap where
  id : Option Value
  name : Option Value
  description : Option Value
  price : Option Value
  available : Option Value
  category : Option Value
  extra : Bool
  deriving DecidableEq, Repr

/-- `not data` in Python: a dict is falsy exactly when it is empty. -/
def DataMap.isFalsy (d : DataMap) : Bool :=
  d.id.isNone && d.name.isNone && d.description.isNone && d.price.isNone &&
    d.available.isNone && d.category.isNone && !d.extra

/-- The `Product` entity (`class Product(db.Model)`).  `name` and
`description` are `Value` since `deserialize` assigns them unchecked; `id` is
`Option Int` with `none` for Python `None` (unpersisted). -/
structure Product where
  id : Option Int
  name : Value
  description : Value
  price : Dec
  available : Bool
  category : Category
  deriving DecidableEq, Repr

/-- `Product()` before `deserialize` fills it in: all columns unset. -/
def Product.fresh : Product :=
  { id := none, name := .vNone, description := .vNone, price := ⟨0, 0⟩,
    available := true, category := .UNKNOWN }

/-- `not self.id`: Python falsiness of the id (`None` or `0`). -/
def Product.idFalsy (p : Product) : Bool :=
  p.id.isNone || p.id == some 0

/-- `Product.serialize`: the dict
`{"id": ..., "name": ..., "description": ..., "price": str(price),
  "available": ..., "category": category.name}`.
`str(self.price)` is a decimal string parsing back to `price` (`vNumStr`);
`category.name` is the symbolic name string. -/
def Product.serialize (p : Product) : DataMap :=
  { id := some (match p.id with | none => .vNone | some n => .vInt n),
    name := some p.name,
    description := some p.description,
    price := some (.vNumStr p.price),
    available := some (.vBool p.available),
    category := some (.vStr p.category.toName),
    extra := false }

/-- The message `f"Missing field: {error}"` for a `KeyError` on key `k`:
`str(KeyError('k'))` is `"'k'"`. -/
def missingFieldMsg (k : String) : String :=
  "Missing field: '" ++ k ++ "'"

/-- The message of the `DataValidationError` wrapping the decimal conversion
failure on value `v` (`str` of the `InvalidOperation`/`TypeError`; the exact
text comes from the decimal library and no claim depends on it). -/
def decimalErrorMsg : Value → String
  | .vStr _ => "[<class 'decimal.ConversionSyntax'>]"
  | _ => "conversion to Decimal is not supported"

/-- The message of the `DataValidationError` produced when
`Category[data["category"]]` raises: a `KeyError` on a non-name string `s`
yields `f"Missing field: {error}"` with `str(KeyError(s)) = "'s'"`; other
values are summarised (no claim depends on their exact text). -/
def categoryErrorMsg : Value → String
  | .vStr s => "Missing field: '" ++ s ++ "'"
  | _ => "Missing field: category key error"

/-- `Product.deserialize(self, data)` from `service/models.py`, translated
statement by statement.  The receiver is mutated in place in Python, so the
result is the receiver's final field state paired with `some message` when a
`DataValidationError` is raised and `none` on success:

* `if not data: raise DataValidationError("No data provided")`;
* `self.name = data["name"]`, `self.description = data["description"]` —
  unchecked assignments, `KeyError` becomes `Missing field: 'k'`;
* `self.price = Decimal(data["price"])` — the right-hand side is evaluated
  first, so on a conversion failure `price` is NOT assigned;
* `isinstance(data["available"], bool)` check, then assignment;
* `self.category = Category[data["category"]]` — `KeyError` on an unknown
  name is caught by the same `except KeyError` branch. -/
def Product.deserialize (p : Product) (data : DataMap) :
    Product × Option String :=
  if data.isFalsy then (p, some "No data provided")
  else
    match data.name with
    | none => (p, some (missingFieldMsg "name"))
    | some nv =>
      let p1 : Product := { p with name := nv }
      match data.description with
      | none => (p1, some (missingFieldMsg "description"))
      | some dv =>
        let p2 : Product := { p1 with description := dv }
        match data.price with
        | none => (p2, some (missingFieldMsg "price"))
        | some pv =>
          match parseDecimal pv with
          | none => (p2, some (decimalErrorMsg pv))
          | some d =>
            let p3 : Product := { p2 with price := d }
            match data.available with
            | none => (p3, some (missingFieldMsg "available"))
            | some av =>
              match av with
              | .vBool b =>
                let p4 : Product := { p3 with available := b }
                match data.category with
                | none => (p4, some (missingFieldMsg "category"))
                | some cv =>
                  match categoryOfValue cv with
                  | none => (p4, some (categoryErrorMsg cv))
                  | some c => ({ p4 with category := c }, none)
              | _ => (p3, some "Invalid type for available")

/-- The persistence gateway state: the stored rows and the storage-generated
next primary key (autoincrement). -/
structure DB where
  rows : List Product
  nextId : Int
  deriving DecidableEq, Repr

/-- Primary keys are storage generated, strictly increasing from 1: every
stored row carries an id, positive and below `nextId` (the invariant an
autoincrement column maintains). -/
def DB.wfB (db : DB) : Bool :=
  db.rows.all (fun q =>
    match q.id with
    | none => false
    | some n => decide (0 < n) && decide (n < db.nextId))

/-- `db.session.add(self); db.session.commit()`: an instance without a
primary key receives the storage-generated one; an instance that already
carries one is inserted under it. -/
def DB.insertRow (db : DB) (q : Product) : DB × Product :=
  match q.id with
  | none =>
    let q1 : Product := { q with id := some db.nextId }
    (⟨db.rows ++ [q1], db.nextId + 1⟩, q1)
  | some _ => (⟨db.rows ++ [q], db.nextId⟩, q)

/-- `Product.create`: `self.id = None` then add and commit. -/
def DB.create (db : DB) (p : Product) : DB × Product :=
  db.insertRow { p with id := none }

/-- `Product.update`: raises `DataValidationError("Update called with empty
ID")` when `not self.id`; otherwise commits the in-place changes to the row
matched by the id. -/
def DB.update (db : DB) (p : Product) : Except String DB :=
  if p.idFalsy then .error "Update called with empty ID"
  else .ok ⟨db.rows.map (fun q => if q.id = p.id then p else q), db.nextId⟩

/-- `Product.delete`: `db.session.delete(self); db.session.commit()` removes
the row matching the instance's primary key. -/
def DB.delete (db : DB) (p : Product) : DB :=
  ⟨db.rows.filter (fun q => !(q.id == p.id)), db.nextId⟩

/-- `Product.find(product_id)`: `cls.query.get(product_id)`, `none` when no
row has that primary key. -/
def DB.find (db : DB) (pid : Int) : Option Product :=
  db.rows.find? (fun q => q.id == some pid)

/-- `Product.all()`. -/
def DB.allRows (db : DB) : List Product :=
  db.rows

/-- `Product.find_by_name(name)`: exact match on the `name` column. -/
def DB.findByName (db : DB) (n : String) : List Product :=
  db.rows.filter (fun q => q.name == .vStr n)

/-- `Product.find_by_availability(available)`. -/
def DB.findByAvailability (db : DB) (b : Bool) : List Product :=
  db.rows.filter (fun q => q.available == b)

/-- `Product.find_by_category(category)`: accepts a `Category` (left) or a
string (right); an unresolvable string returns `none` (Python `None`), the
sentinel distinct from a resolved-but-empty `some []`. -/
def DB.findByCategory (db : DB) (c : Category ⊕ String) :
    Option (List Product) :=
  match c with
  | .inl cat => some (db.rows.filter (fun q => q.category == cat))
  | .inr s =>
    match Category.fromName s with
    | none => none
    | some cat => some (db.rows.filter (fun q => q.category == cat))

/-- A JSON response body: a serialized product, an array of serialized
products, or none (empty body / framework error page for `abort`). -/
inductive Body where
  | obj (d : DataMap)
  | list (l : List DataMap)
  | none
  deriving DecidableEq, Repr

/-- An HTTP response: status code and JSON body. -/
structure Resp where
  status : Nat
  body : Body
  deriving DecidableEq, Repr

/-- The request data the handlers of `service/routes.py` read: the
`Content-Type` header (absent or its exact string value) and the parsed JSON
body (`request.get_json()`; an absent or empty body is the falsy `DataMap`). -/
structure Req where
  contentType : Option String
  body : DataMap
  deriving DecidableEq, Repr

/-- `check_content_type("application/json")`: aborts 415 when the header is
absent or not exactly equal to the expected string.  `true` means the request
may proceed. -/
def checkContentType (r : Req) : Bool :=
  match r.contentType with
  | none => false
  | some s => s == "application/json"

/-- `create_products` (`POST /products`): content-type guard, then
deserialize into a fresh `Product` and create; `DataValidationError` becomes
400, success is 201 with the serialized product (the `Location` header is
derived from the returned id and not modelled separately). -/
def createProducts (r : Req) (db : DB) : Resp × DB :=
  if !(checkContentType r) then (⟨415, .none⟩, db)
  else
    match Product.fresh.deserialize r.body with
    | (_, some _) => (⟨400, .none⟩, db)
    | (p, Option.none) =>
      let res := db.create p
      (⟨201, .obj res.2.serialize⟩, res.1)

/-- Python `s.lower()` on the ASCII query values the route compares with:
lowercase each character. -/
def pyLower (s : String) : String :=
  ⟨s.data.map Char.toLower⟩

/-- Python truthiness of `request.args.get(k)`: present and non-empty. -/
def argTruthy (a : Option String) : Bool :=
  match a with
  | none => false
  | some s => s != ""

/-- `list_products` (`GET /products`), translated branch for branch:
`if name: ... elif category: ... elif available is not None: ... else: ...`,
with the 400 aborts for an unresolvable category and for an availability
value whose lowercasing is neither "true" nor "false". -/
def listProducts (db : DB) (name category available : Option String) : Resp :=
  if argTruthy name then
    ⟨200, .list ((db.findByName (name.getD "")).map Product.serialize)⟩
  else if argTruthy category then
    match db.findByCategory (.inr (category.getD "")) with
    | Option.none => ⟨400, .none⟩
    | some ps => ⟨200, .list (ps.map Product.serialize)⟩
  else
    match available with
    | Option.none => ⟨200, .list (db.allRows.map Product.serialize)⟩
    | some av =>
      if !(pyLower av == "true" || pyLower av == "false") then ⟨400, .none⟩
      else
        ⟨200, .list ((db.findByAvailability (pyLower av == "true")).map
          Product.serialize)⟩

/-- `get_product` (`GET /products/{id}`). -/
def getProduct (db : DB) (pid : Int) : Resp :=
  match db.find pid with
  | Option.none => ⟨404, .none⟩
  | some p => ⟨200, .obj p.serialize⟩

/-- `update_product` (`PUT /products/{id}`): content-type guard, lookup,
deserialize onto the found entity, update; both the deserialization error and
the empty-id error raised by `update` are caught as 400. -/
def updateProduct (r : Req) (pid : Int) (db : DB) : Resp × DB :=
  if !(checkContentType r) then (⟨415, .none⟩, db)
  else
    match db.find pid with
    | Option.none => (⟨404, .none⟩, db)
    | some prod =>
      match prod.deserialize r.body with
      | (_, some _) => (⟨400, .none⟩, db)
      | (p, Option.none) =>
        match db.update p with
        | .error _ => (⟨400, .none⟩, db)
        | .ok db2 => (⟨200, .obj p.serialize⟩, db2)

/-- `delete_products` (`DELETE /products/{id}`): 404 when the id is absent,
otherwise delete and 204 with an empty body. -/
def deleteProducts (db : DB) (pid : Int) : Resp × DB :=
  match db.find pid with
  | Option.none => (⟨404, .none⟩, db)
  | some p => (⟨204, .none⟩, db.delete p)

/-- The exact condition under which `deserialize` raises a
`DataValidationError`, read off the spec's enumeration: empty data, a missing
required key, an unparsable price, a non-boolean availability, or an
unresolvable category. -/
def deserializeFails (data : DataMap) : Bool :=
  data.isFalsy || data.name.isNone || data.description.isNone ||
    (match data.price with
     | none => true
     | some v => (parseDecimal v).isNone) ||
    (match data.available with
     | none => true
     | some v => !v.isBool) ||
    (match data.category with
     | none => true
     | some v => (categoryOfValue v).isNone)

/-- A concrete persisted product used as evaluation input. -/
def sampleProduct : Product :=
  { id := some 1, name := .vStr "Fedora", description := .vStr "A red hat",
    price := ⟨1250, -2⟩, available := true, category := .CLOTHS }

/-- A concrete store holding `sampleProduct` under id 1. -/
def sampleDB : DB :=
  ⟨[sampleProduct], 2⟩

/-- A concrete payload whose `available` value is a string, not a boolean. -/
def sampleBadAvail : DataMap :=
  { id := none, name := some (.vStr "Fedora"),
    description := some (.vStr "A red hat"),
    price := some (.vNumStr ⟨1250, -2⟩), available := some (.vStr "yes"),
    category := some (.vStr "CLOTHS"), extra := false }

/-- A concrete payload missing the `name` key. -/
def sampleNoName : DataMap :=
  { id := none, name := none, description := some (.vStr "A red hat"),
    price := some (.vNumStr ⟨1250, -2⟩), available := some (.vBool true),
    category := some (.vStr "CLOTHS"), extra := true }

/-- A concrete request with a wrong `Content-Type` header. -/
def sampleBadReq : Req :=
  ⟨some "text/html", sampleBadAvail⟩

/-- Claim C2: for every product Q with valid fields (enforced here by the
field types: price a `Dec`, available a `Bool`, category a `Category`, name
and description set), `deserialize` applied to `serialize Q` on any receiver
succeeds and yields a product equal to Q in every field except `id`, which
keeps the receiver's value (the receiver's id is never written). -/
theorem claim_C2 (q p : Product) :
    p.deserialize q.serialize = ({ q with id := p.id }, none) := by
  cases q with
  | mk i n d pr av c => cases c <;> rfl

/-- Claim C3: `find_by_category` on a string that names no `Category` variant
returns the `none` sentinel, which differs from every resolved result
(including the empty list); on a `Category` variant, or on a string resolving
to one, it returns the (possibly empty) list of rows of that category. -/
theorem claim_C3 (db : DB) (s : String) (c cat : Category) :
    (Category.fromName s = none →
      db.findByCategory (.inr s) = none ∧
        ∀ l : List Product, db.findByCategory (.inr s) ≠ some l) ∧
    db.findByCategory (.inl c) =
      some (db.rows.filter (fun q => q.category == c)) ∧
    (Category.fromName s = some cat →
      db.findByCategory (.inr s) =
        some (db.rows.filter (fun q => q.category == cat))) := by
  refine ⟨fun h => ?_, rfl, fun h => ?_⟩
  · simp [DB.findByCategory, h]
  · simp [DB.findByCategory, h]

/-- Claim C3 witness: concrete evaluations — the unknown name "BAD" yields the
sentinel on a store with an empty FOOD category, while "FOOD" resolves to the
empty list. -/
theorem claim_C3_witness :
    (DB.findByCategory sampleDB (.inr "BAD") = none ∧
      ∀ l : List Product, DB.findByCategory sampleDB (.inr "BAD") ≠ some l) ∧
    DB.findByCategory sampleDB (.inr "FOOD") = some [] :=
  ⟨(claim_C3 sampleDB "BAD" .FOOD .FOOD).1 (by decide),
   (claim_C3 sampleDB "FOOD" .FOOD .FOOD).2.2 (by decide)⟩

/-- Claim C5: whenever the `Content-Type` header is absent or differs from
the exact string "application/json", both `POST /products` and
`PUT /products/{id}` abort with 415.  The conclusion holds for every body,
path id and store state, and leaves the store unchanged: the abort happens
before any body parsing or lookup can influence the outcome. -/
theorem claim_C5 (r : Req) (pid : Int) (db : DB)
    (h : r.contentType = none ∨ r.contentType ≠ some "application/json") :
    createProducts r db = (⟨415, .none⟩, db) ∧
    updateProduct r pid db = (⟨415, .none⟩, db) := by
  have hc : checkContentType r = false := by
    unfold checkContentType
    rcases h with h | h
    · rw [h]
    · cases hr : r.contentType with
      | none => rfl
      | some s =>
        rw [hr] at h
        simp only [ne_eq, Option.some.injEq] at h
        simp [h]
  exact ⟨by simp [createProducts, hc], by simp [updateProduct, hc]⟩

/-- Claim C5 witness: a request with `Content-Type: text/html` is rejected
with 415 by both handlers on the sample store. -/
theorem claim_C5_witness :
    createProducts sampleBadReq sampleDB = (⟨415, .none⟩, sampleDB) ∧
    updateProduct sampleBadReq 1 sampleDB = (⟨415, .none⟩, sampleDB) :=
  claim_C5 sampleBadReq 1 sampleDB (Or.inr (by decide))

/-- Claim C6 counterexample: the claim says update commits whenever the id
is set, but a product whose id is set to the integer 0 is rejected: Python's
`not self.id` is true for 0, not only for `None`. -/
theorem claim_C6_counterexample :
    ({ sampleProduct with id := some 0 } : Product).id ≠ none ∧
    DB.update sampleDB { sampleProduct with id := some 0 } =
      .error "Update called with empty ID" :=
  ⟨by decide, rfl⟩

/-- Claim C6 (amended): update fails with the validation error "Update called
with empty ID" whenever the instance's id is falsy — unset (`None`) or the
integer 0 — and when the id is set and nonzero it commits the in-place
changes to the row matched by that id: the stored row is the instance itself,
its `id` field untouched, and `nextId` is not advanced. -/
theorem claim_C6 (db : DB) (p : Product) :
    (p.idFalsy = true → db.update p = .error "Update called with empty ID") ∧
    (p.idFalsy = false →
      db.update p =
        .ok ⟨db.rows.map (fun q => if q.id = p.id then p else q),
          db.nextId⟩) := by
  constructor <;> intro h <;> simp [DB.update, h]

/-- Claim C6 witness: updating the sample product (id 1) rewrites its row in
place, and updating an id-less product raises the empty-id error. -/
theorem claim_C6_witness :
    DB.update sampleDB { sampleProduct with available := false } =
      .ok ⟨[{ sampleProduct with available := false }], 2⟩ ∧
    DB.update sampleDB { sampleProduct with id := none } =
      .error "Update called with empty ID" :=
  ⟨by
    have h := (claim_C6 sampleDB { sampleProduct with available := false }).2
      (by decide)
    simpa [sampleDB, sampleProduct] using h,
   (claim_C6 sampleDB { sampleProduct with id := none }).1 (by decide)⟩

/-- Claim C7: after `delete`, `find` on the product's former id returns the
not-found sentinel; the DELETE route answers 204 with an empty body when the
id exists (removing the row) and 404 when it does not. -/
theorem claim_C7 (db : DB) (p : Product) (n pid : Int) (q : Product) :
    (p.id = some n → DB.find (db.delete p) n = none) ∧
    (db.find pid = none → deleteProducts db pid = (⟨404, .none⟩, db)) ∧
    (db.find pid = some q →
      deleteProducts db pid = (⟨204, .none⟩, db.delete q)) := by
  refine ⟨fun h => ?_, fun h => ?_, fun h => ?_⟩
  · unfold DB.find DB.delete
    apply List.find?_eq_none.mpr
    intro x hx
    simp only [List.mem_filter, Bool.not_eq_eq_eq_not, Bool.not_true,
      beq_eq_false_iff_ne] at hx
    simp [← h, hx.2]
  · simp [deleteProducts, h]
  · simp [deleteProducts, h]

/-- Claim C7 witness: deleting the sample product makes `find 1` return the
sentinel; the route gives 204 on id 1 and 404 on id 7. -/
theorem claim_C7_witness :
    DB.find (sampleDB.delete sampleProduct) 1 = none ∧
    deleteProducts sampleDB 7 = (⟨404, .none⟩, sampleDB) ∧
    deleteProducts sampleDB 1 = (⟨204, .none⟩, sampleDB.delete sampleProduct) :=
  ⟨(claim_C7 sampleDB sampleProduct 1 1 sampleProduct).1 rfl,
   (claim_C7 sampleDB sampleProduct 1 7 sampleProduct).2.1 (by decide),
   (claim_C7 sampleDB sampleProduct 1 1 sampleProduct).2.2 (by decide)⟩

/-- Claim C9: `create` first resets `self.id = None`, so for every instance —
also one already carrying an id — it inserts a new row and assigns the fresh
storage-generated id `nextId`, appending the row and advancing the counter;
under the autoincrement invariant the fresh id differs from the id of every
existing row, so no existing id is ever reused. -/
theorem claim_C9 (db : DB) (p : Product) :
    (db.create p).2.id = some db.nextId ∧
    (db.create p).1.rows = db.rows ++ [(db.create p).2] ∧
    (db.create p).1.nextId = db.nextId + 1 ∧
    (db.wfB = true → ∀ q ∈ db.rows, q.id ≠ (db.create p).2.id) := by
  refine ⟨rfl, rfl, rfl, fun hw q hq => ?_⟩
  have hall := (List.all_eq_true.mp hw) q hq
  cases hqid : q.id with
  | none => simp [DB.create, DB.insertRow, hqid]
  | some m =>
    rw [hqid] at hall
    simp only [decide_eq_true_eq, Bool.and_eq_true] at hall
    have hm : m < db.nextId := hall.2
    simp only [DB.create, DB.insertRow, hqid]
    intro hcontra
    rw [Option.some_inj] at hcontra
    omega

/-- Claim C9 witness: creating from an instance that still carries id 1
inserts a fresh row under id 2 (not reusing id 1) on the sample store. -/
theorem claim_C9_witness :
    (sampleDB.create sampleProduct).2.id = some 2 ∧
    ∀ q ∈ sampleDB.rows, q.id ≠ (sampleDB.create sampleProduct).2.id :=
  ⟨(claim_C9 sampleDB sampleProduct).1,
   (claim_C9 sampleDB sampleProduct).2.2.2 (by decide)⟩

/-- Claim C4: `deserialize` raises a validation error exactly when the data
is empty, a required key among name/description/price/available/category is
missing, the price does not parse as a decimal, the availability is not a
boolean, or the category does not resolve to a variant (`deserializeFails`
spells out this disjunction); a missing key is reported in the message
(`Missing field: 'k'` for the first missing key in evaluation order).
Otherwise it succeeds, returning the mutated receiver. -/
theorem claim_C4 (p : Product) (data : DataMap) :
    (p.deserialize data).2.isSome = deserializeFails data ∧
    (data.isFalsy = true → (p.deserialize data).2 = some "No data provided") ∧
    (data.isFalsy = false → data.name = none →
      (p.deserialize data).2 = some (missingFieldMsg "name")) ∧
    (data.isFalsy = false → (∃ v, data.name = some v) →
      data.description = none →
      (p.deserialize data).2 = some (missingFieldMsg "description")) ∧
    (data.isFalsy = false → (∃ v, data.name = some v) →
      (∃ v, data.description = some v) → data.price = none →
      (p.deserialize data).2 = some (missingFieldMsg "price")) ∧
    (data.isFalsy = false → (∃ v, data.name = some v) →
      (∃ v, data.description = some v) →
      (∃ v d, data.price = some v ∧ parseDecimal v = some d) →
      data.available = none →
      (p.deserialize data).2 = some (missingFieldMsg "available")) ∧
    (data.isFalsy = false → (∃ v, data.name = some v) →
      (∃ v, data.description = some v) →
      (∃ v d, data.price = some v ∧ parseDecimal v = some d) →
      (∃ b, data.available = some (.vBool b)) → data.category = none →
      (p.deserialize data).2 = some (missingFieldMsg "category")) := by
  rcases data with ⟨di, dn, dd, dp, dav, dc, de⟩
  refine ⟨?_, ?_, ?_, ?_, ?_, ?_, ?_⟩
  · by_cases hf : DataMap.isFalsy ⟨di, dn, dd, dp, dav, dc, de⟩ = true
    · simp [Product.deserialize, deserializeFails, hf]
    · cases dn with
      | none => simp [Product.deserialize, deserializeFails, hf]
      | some nv =>
        cases dd with
        | none => simp [Product.deserialize, deserializeFails, hf]
        | some dv =>
          cases dp with
          | none => simp [Product.deserialize, deserializeFails, hf]
          | some pv =>
            cases hpd : parseDecimal pv with
            | none => simp [Product.deserialize, deserializeFails, hf, hpd]
            | some d =>
              cases dav with
              | none => simp [Product.deserialize, deserializeFails, hf, hpd]
              | some av =>
                cases av with
                | vBool b =>
                  cases dc with
                  | none =>
                    simp [Product.deserialize, deserializeFails, hf, hpd,
                      Value.isBool]
                  | some cv =>
                    cases hcv : categoryOfValue cv with
                    | none =>
                      simp [Product.deserialize, deserializeFails, hf, hpd,
                        hcv, Value.isBool]
                    | some c =>
                      simp [Product.deserialize, deserializeFails, hf, hpd,
                        hcv, Value.isBool]
                | vNumStr d2 =>
                  simp [Product.deserialize, deserializeFails, hf, hpd,
                    Value.isBool]
                | vStr s =>
                  simp [Product.deserialize, deserializeFails, hf, hpd,
                    Value.isBool]
                | vInt n =>
                  simp [Product.deserialize, deserializeFails, hf, hpd,
                    Value.isBool]
                | vNum d2 =>
                  simp [Product.deserialize, deserializeFails, hf, hpd,
                    Value.isBool]
                | vNone =>
                  simp [Product.deserialize, deserializeFails, hf, hpd,
                    Value.isBool]
                | vOther =>
                  simp [Product.deserialize, deserializeFails, hf, hpd,
                    Value.isBool]
  · intro hf
    simp [Product.deserialize, hf]
  · intro hf hn
    simp only at hn
    subst hn
    simp [Product.deserialize, hf]
  · rintro hf ⟨nv, hn⟩ hd
    simp only at hn hd
    subst hn
    subst hd
    simp [Product.deserialize, hf]
  · rintro hf ⟨nv, hn⟩ ⟨dv, hd⟩ hp
    simp only at hn hd hp
    subst hn
    subst hd
    subst hp
    simp [Product.deserialize, hf]
  · rintro hf ⟨nv, hn⟩ ⟨dv, hd⟩ ⟨pv, d, hp, hpd⟩ hav
    simp only at hn hd hp hav
    subst hn
    subst hd
    subst hp
    subst hav
    simp [Product.deserialize, hf, hpd]
  · rintro hf ⟨nv, hn⟩ ⟨dv, hd⟩ ⟨pv, d, hp, hpd⟩ ⟨b, hav⟩ hc
    simp only at hn hd hp hav hc
    subst hn
    subst hd
    subst hp
    subst hav
    subst hc
    simp [Product.deserialize, hf, hpd]

/-- Claim C4 witness: the empty payload, a payload missing `name`, and a
payload with a non-boolean `available`, evaluated concretely. -/
theorem claim_C4_witness :
    (Product.fresh.deserialize ⟨none, none, none, none, none, none, false⟩).2 =
      some "No data provided" ∧
    (Product.fresh.deserialize sampleNoName).2 =
      some (missingFieldMsg "name") ∧
    (Product.fresh.deserialize sampleBadAvail).2.isSome =
      deserializeFails sampleBadAvail :=
  ⟨(claim_C4 Product.fresh ⟨none, none, none, none, none, none, false⟩).2.1
      (by decide),
   (claim_C4 Product.fresh sampleNoName).2.2.1 (by decide) (by decide),
   (claim_C4 Product.fresh sampleBadAvail).1⟩

/-- Claim C8: `deserialize` is not atomic — when the data is non-empty, has
name, description and a parsable price, and the error is due to a non-boolean
`available` or an unresolvable `category`, the receiver's name, description
and price have already been overwritten with the payload's values when the
error is raised. -/
theorem claim_C8 (p : Product) (data : DataMap) (nv dv pv : Value) (d : Dec)
    (hf : data.isFalsy = false) (hn : data.name = some nv)
    (hd : data.description = some dv) (hp : data.price = some pv)
    (hpd : parseDecimal pv = some d)
    (hcause :
      (∃ av, data.available = some av ∧ av.isBool = false) ∨
      (∃ b cv, data.available = some (.vBool b) ∧ data.category = some cv ∧
        categoryOfValue cv = none)) :
    (p.deserialize data).2.isSome = true ∧
    (p.deserialize data).1.name = nv ∧
    (p.deserialize data).1.description = dv ∧
    (p.deserialize data).1.price = d := by
  rcases hcause with ⟨av, hav, hb⟩ | ⟨b, cv, hav, hc, hcv⟩
  · cases av <;> simp_all [Product.deserialize, Value.isBool]
  · simp [Product.deserialize, hf, hn, hd, hp, hpd, hav, hc, hcv]

/-- Claim C8 witness: after the failed deserialization of the payload whose
`available` is the string "yes", the receiver already holds the payload's
name, description and price. -/
theorem claim_C8_witness :
    (Product.fresh.deserialize sampleBadAvail).2.isSome = true ∧
    (Product.fresh.deserialize sampleBadAvail).1.name = .vStr "Fedora" ∧
    (Product.fresh.deserialize sampleBadAvail).1.description =
      .vStr "A red hat" ∧
    (Product.fresh.deserialize sampleBadAvail).1.price = ⟨1250, -2⟩ :=
  claim_C8 Product.fresh sampleBadAvail _ _ _ _ (by decide) rfl rfl rfl rfl
    (Or.inl ⟨.vStr "yes", rfl, rfl⟩)

/-- Claim C1: `GET /products` applies its query filters with mutually
exclusive precedence name > category > available > none: a given (present,
non-empty — Python truthiness) name filter returns exactly the rows whose
name matches it; otherwise a given category filter returns the rows of that
category, or 400 when the name resolves to no variant; otherwise a present
available filter returns the rows with that availability, or 400 when its
lowercased value is neither "true" nor "false"; otherwise all rows.  Success
is 200 with the JSON array of serialized products. -/
theorem claim_C1 (db : DB) (name category available : Option String) :
    (∀ s, name = some s → s ≠ "" →
      listProducts db name category available =
        ⟨200, .list ((db.rows.filter (fun q => q.name == .vStr s)).map
          Product.serialize)⟩) ∧
    (argTruthy name = false → ∀ s, category = some s → s ≠ "" →
      (Category.fromName s = none →
        listProducts db name category available = ⟨400, .none⟩) ∧
      (∀ cat, Category.fromName s = some cat →
        listProducts db name category available =
          ⟨200, .list ((db.rows.filter (fun q => q.category == cat)).map
            Product.serialize)⟩)) ∧
    (argTruthy name = false → argTruthy category = false →
      ∀ s, available = some s →
      ((pyLower s ≠ "true" ∧ pyLower s ≠ "false") →
        listProducts db name category available = ⟨400, .none⟩) ∧
      (pyLower s = "true" →
        listProducts db name category available =
          ⟨200, .list ((db.rows.filter (fun q => q.available == true)).map
            Product.serialize)⟩) ∧
      (pyLower s = "false" →
        listProducts db name category available =
          ⟨200, .list ((db.rows.filter (fun q => q.available == false)).map
            Product.serialize)⟩)) ∧
    (argTruthy name = false → argTruthy category = false →
      available = none →
      listProducts db name category available =
        ⟨200, .list (db.rows.map Product.serialize)⟩) := by
  refine ⟨?_, ?_, ?_, ?_⟩
  · rintro s rfl hne
    have ht : argTruthy (some s) = true := by simp [argTruthy, hne]
    simp [listProducts, ht, DB.findByName]
  · rintro hn s rfl hne
    have ht : argTruthy (some s) = true := by simp [argTruthy, hne]
    refine ⟨fun hcat => ?_, fun cat hcat => ?_⟩
    · simp [listProducts, hn, ht, DB.findByCategory, hcat]
    · simp [listProducts, hn, ht, DB.findByCategory, hcat]
  · rintro hn hc s rfl
    refine ⟨fun h => ?_, fun h => ?_, fun h => ?_⟩
    · simp [listProducts, hn, hc, h.1, h.2]
    · simp [listProducts, hn, hc, h, DB.findByAvailability]
    · simp [listProducts, hn, hc, h, DB.findByAvailability]
  · rintro hn hc rfl
    simp [listProducts, hn, hc, DB.allRows]

/-- Claim C1 witness: concrete evaluations on the sample store — name filter
hit, unrecognized category 400, invalid availability 400, no filter. -/
theorem claim_C1_witness :
    listProducts sampleDB (some "Fedora") none none =
      ⟨200, .list [sampleProduct.serialize]⟩ ∧
    listProducts sampleDB none (some "BAD") none = ⟨400, .none⟩ ∧
    listProducts sampleDB none none (some "maybe") = ⟨400, .none⟩ ∧
    listProducts sampleDB none none none =
      ⟨200, .list [sampleProduct.serialize]⟩ := by
  refine ⟨?_, ?_, ?_, ?_⟩
  · have h := (claim_C1 sampleDB (some "Fedora") none none).1 "Fedora" rfl
      (by decide)
    simpa [sampleDB, sampleProduct] using h
  · exact ((claim_C1 sampleDB none (some "BAD") none).2.1 (by decide) "BAD"
      rfl (by decide)).1 (by decide)
  · exact ((claim_C1 sampleDB none none (some "maybe")).2.2.1 (by decide)
      (by decide) "maybe" rfl).1 (by decide)
  · have h := (claim_C1 sampleDB none none none).2.2.2 (by decide) (by decide)
      rfl
    simpa [sampleDB] using h

/-- Claim C10: in `GET /products` a present-but-empty query value is handled
unevenly — an empty `name` or an empty `category` is falsy and falls through
to the next filter exactly as if absent, whereas an empty `available`
(checked with `is not None`) is caught by the value check and rejected with
400. -/
theorem claim_C10 (db : DB) (name category available : Option String) :
    listProducts db (some "") category available =
      listProducts db none category available ∧
    listProducts db name (some "") available =
      listProducts db name none available ∧
    (argTruthy name = false → argTruthy category = false →
      listProducts db name category (some "") = ⟨400, .none⟩) := by
  refine ⟨?_, ?_, fun hn hc => ?_⟩
  · simp [listProducts, argTruthy]
  · by_cases hn : argTruthy name = true
    · simp [listProducts, hn]
    · simp only [Bool.not_eq_true] at hn
      simp [listProducts, hn, argTruthy]
  · have h1 : pyLower "" ≠ "true" := by decide
    have h2 : pyLower "" ≠ "false" := by decide
    simp [listProducts, hn, hc, h1, h2]

/-- Claim C10 witness: on the sample store an empty name falls through to the
full listing, an empty category likewise, and an empty available is a 400. -/
theorem claim_C10_witness :
    listProducts sampleDB (some "") none none =
      listProducts sampleDB none none none ∧
    listProducts sampleDB none (some "") none =
      listProducts sampleDB none none none ∧
    listProducts sampleDB none none (some "") = ⟨400, .none⟩ :=
  ⟨(claim_C10 sampleDB none none none).1,
   (claim_C10 sampleDB none none none).2.1,
   (claim_C10 sampleDB none none none).2.2 (by decide) (by decide)⟩
